import Mathlib

/-
Verification development for the mini-dalle server (src/server.js, current
revision) and its client-side history store. The request handlers are
embedded as pure functions over a model of JSON/JavaScript values; the
external image provider is a parameter, and every outgoing call is recorded
so that claims about dispatch can be stated. The client history store is
embedded as explicit state passing, with the timestamp and random draw of
each addToHistory call supplied as explicit inputs.
-/

/-- Model of a JavaScript value as seen by the request handlers. Numbers are
modelled as rationals, so that the integrality test of Number.isInteger is
the condition that the denominator is one. -/
inductive JSVal where
  | jundefined
  | jnull
  | jbool (b : Bool)
  | jnum (q : Rat)
  | jstr (s : String)
  | jarr (xs : List JSVal)
  | jobj (fields : List (String × JSVal))

/-- Field lookup in a modelled JavaScript object. -/
def lookupField : List (String × JSVal) → String → JSVal
  | [], _ => .jundefined
  | (k, v) :: rest, key => if k = key then v else lookupField rest key

/-- Property access: item.key is undefined unless item is an object holding
the key. -/
def JSVal.getField : JSVal → String → JSVal
  | .jobj fields, key => lookupField fields key
  | _, _ => .jundefined

/-- JavaScript truthiness of a modelled value. -/
def JSVal.truthy : JSVal → Bool
  | .jundefined => false
  | .jnull => false
  | .jbool b => b
  | .jnum q => !(q == 0)
  | .jstr s => !(s == "")
  | .jarr _ => true
  | .jobj _ => true

/-- Test for typeof v === "string". -/
def JSVal.isStringVal : JSVal → Bool
  | .jstr _ => true
  | _ => false

/-- Test for typeof v === "object"; in JavaScript this holds for null,
arrays and plain objects. -/
def JSVal.typeofObject : JSVal → Bool
  | .jnull => true
  | .jarr _ => true
  | .jobj _ => true
  | _ => false

/-- Strict equality of a modelled value with a string literal. -/
def JSVal.eqStr : JSVal → String → Bool
  | .jstr s, t => s == t
  | _, _ => false

/-- Extraction of the string payload; used only after validation has
established that the value is a string. -/
def JSVal.asString : JSVal → String
  | .jstr s => s
  | _ => ""

/-- Extraction of the numeric payload; used only after validation has
established that the value is a number. -/
def JSVal.asRat : JSVal → Rat
  | .jnum q => q
  | _ => 0

/-- The guard pattern (!v || typeof v !== "string") used for the prompt and
the source image fields. -/
def jsMissingString (v : JSVal) : Bool := !v.truthy || !v.isStringVal

/-- ALLOWED_SIZES from src/server.js. -/
def ALLOWED_SIZES : List String := ["1024x1024", "1024x1536", "1536x1024"]

/-- ALLOWED_QUALITIES from src/server.js. -/
def ALLOWED_QUALITIES : List String := ["low", "medium", "high"]

/-- ALLOWED_OUTPUT_FORMATS from src/server.js. -/
def ALLOWED_OUTPUT_FORMATS : List String := ["jpeg", "png"]

/-- ALLOWED_SOURCE_MIME_TYPES from src/server.js. -/
def ALLOWED_SOURCE_MIME_TYPES : List String := ["image/jpeg", "image/png"]

/-- MAX_REFERENCE_IMAGES from src/server.js. -/
def MAX_REFERENCE_IMAGES : Nat := 4

/-- Membership test set.has(v) on a set of strings applied to an arbitrary
JavaScript value: false whenever the value is not a string. -/
def setHas (allowed : List String) : JSVal → Bool
  | .jstr s => allowed.contains s
  | _ => false

/-- The check !Number.isInteger(c) || c < 0 || c > 100, negated: the value
is a number that is an integer between 0 and 100. -/
def compressionValid : JSVal → Bool
  | .jnum q => q.den == 1 && decide ((0 : Rat) ≤ q) && decide (q ≤ (100 : Rat))
  | _ => false

/-- Characters of the base64 alphabet other than padding. Buffer.from with
the base64 encoding ignores characters outside the alphabet, so the decoded
byte count is determined by the number of alphabet characters. -/
def isBase64Char (c : Char) : Bool :=
  (decide ('A' ≤ c) && decide (c ≤ 'Z')) ||
  (decide ('a' ≤ c) && decide (c ≤ 'z')) ||
  (decide ('0' ≤ c) && decide (c ≤ '9')) ||
  c == '+' || c == '/'

/-- Byte length of Buffer.from(s, "base64"). -/
def base64DecodedLength (s : String) : Nat :=
  ((s.data.filter isBase64Char).length * 3) / 4

/-- Whitespace characters stripped by the JavaScript trim method. -/
def isJsSpace (c : Char) : Bool :=
  c == ' ' || c == '\t' || c == '\n' || c == '\r' ||
  c == '\x0b' || c == '\x0c'

/-- Model of the JavaScript String.prototype.trim: whitespace is stripped
from both ends. -/
def jsTrim (s : String) : String :=
  String.mk (((s.data.dropWhile isJsSpace).reverse.dropWhile isJsSpace).reverse)

/-- Model of a File object handed to the provider client: its name, its
declared mime type, and the base64 text its contents were decoded from. -/
structure ImageFile where
  name : String
  mimeType : String
  b64data : String
deriving Repr, DecidableEq

/-- Embedding of createImageFileFromBase64 from src/server.js. -/
def createImageFileFromBase64 (imageB64 : JSVal) (mimeType : JSVal)
    (fileStem : String) : Except String ImageFile :=
  match imageB64 with
  | .jstr s =>
    if jsTrim s = "" then .error "Missing source image data."
    else
      match mimeType with
      | .jstr m =>
        if !ALLOWED_SOURCE_MIME_TYPES.contains m then
          .error "Unsupported source image type. Use PNG or JPEG."
        else if base64DecodedLength s = 0 then
          .error "Invalid source image data."
        else
          .ok { name := fileStem ++ "." ++ (if m = "image/jpeg" then "jpg" else "png"),
                mimeType := m, b64data := s }
      | _ => .error "Unsupported source image type. Use PNG or JPEG."
  | _ => .error "Missing source image data."

/-- Characters kept unchanged by the stem sanitizer regex [^a-zA-Z0-9._-]. -/
def isSafeStemChar (c : Char) : Bool :=
  (decide ('a' ≤ c) && decide (c ≤ 'z')) ||
  (decide ('A' ≤ c) && decide (c ≤ 'Z')) ||
  (decide ('0' ≤ c) && decide (c ≤ '9')) ||
  c == '.' || c == '_' || c == '-'

/-- Replacement of every character outside [a-zA-Z0-9._-] with an
underscore. -/
def sanitizeStem (s : String) : String :=
  String.mk (s.data.map (fun c => if isSafeStemChar c then c else '_'))

/-- File stem chosen for the reference image at the given index. -/
def referenceStem (item : JSVal) (index : Nat) : String :=
  let rawName :=
    match item.getField "name" with
    | .jstr s => jsTrim s
    | _ => ""
  sanitizeStem (if rawName = "" then "reference-" ++ toString (index + 1) else rawName)

/-- The mapping body of parseReferenceImageFiles, processing the entries in
order and stopping at the first failing entry, as a thrown exception does. -/
def parseReferenceItems : List JSVal → Nat → Except String (List ImageFile)
  | [], _ => .ok []
  | item :: rest, index =>
    if !item.truthy || !item.typeofObject then
      .error "Each reference image must be an object."
    else
      match createImageFileFromBase64 (item.getField "b64") (item.getField "mime_type")
          (referenceStem item index) with
      | .error e => .error e
      | .ok file =>
        match parseReferenceItems rest (index + 1) with
        | .error e => .error e
        | .ok files => .ok (file :: files)

/-- Embedding of parseReferenceImageFiles from src/server.js. -/
def parseReferenceImageFiles (referenceImages : JSVal) : Except String (List ImageFile) :=
  match referenceImages with
  | .jundefined => .ok []
  | .jnull => .ok []
  | .jarr items =>
    if items.length > MAX_REFERENCE_IMAGES then
      .error ("You can upload up to " ++ toString MAX_REFERENCE_IMAGES ++ " reference images.")
    else parseReferenceItems items 0
  | _ => .error "reference_images must be an array."

deriving instance DecidableEq for Except

/-- Request body of POST /generate, as destructured by the handler. -/
structure GenerateRequest where
  prompt : JSVal
  size : JSVal
  quality : JSVal
  output_format : JSVal
  output_compression : JSVal
  reference_images : JSVal

/-- Request body of POST /edit, as destructured by the handler. -/
structure EditRequest where
  prompt : JSVal
  size : JSVal
  quality : JSVal
  output_format : JSVal
  output_compression : JSVal
  image_b64 : JSVal
  image_mime_type : JSVal
  reference_images : JSVal

/-- The image argument of an outgoing provider call: either a single file or
an ordered list of files. -/
inductive ImageInput where
  | single (f : ImageFile)
  | multiple (fs : List ImageFile)
deriving Repr, DecidableEq

/-- The ordered list of files carried by an image input. -/
def ImageInput.toList : ImageInput → List ImageFile
  | .single f => [f]
  | .multiple fs => fs

/-- Payload of a call to the generation operation of the provider. The
output_compression field is present exactly when the handler attached it. -/
structure GeneratePayload where
  model : String
  prompt : String
  size : String
  quality : String
  output_format : String
  output_compression : Option Rat
deriving Repr, DecidableEq

/-- Payload of a call to the edit operation of the provider. -/
structure EditPayload where
  model : String
  prompt : String
  image : ImageInput
  size : String
  quality : String
  output_format : String
  output_compression : Option Rat
deriving Repr, DecidableEq

/-- A single outgoing call to the external provider. -/
inductive ProviderCall where
  | generate (payload : GeneratePayload)
  | edit (payload : EditPayload)
deriving Repr, DecidableEq

/-- The output_compression field forwarded by a provider call. -/
def ProviderCall.compression : ProviderCall → Option Rat
  | .generate p => p.output_compression
  | .edit p => p.output_compression

/-- Response of the provider: success carries result.data as the list of the
optional b64_json fields of its entries; failure is a thrown error, carried
as its formatted message. -/
inductive ProviderReply where
  | success (data : List (Option String))
  | failure (message : String)

/-- Body of the HTTP response produced by a handler. -/
inductive ResponseBody where
  | errorBody (msg : String)
  | imageBody (b64 : String) (mime_type : String)
deriving Repr, DecidableEq

/-- Observable outcome of one handler run: HTTP status, response body, and
the list of provider calls that were dispatched. -/
structure HandlerOutput where
  status : Nat
  body : ResponseBody
  calls : List ProviderCall
deriving Repr, DecidableEq

/-- The b64 extraction result.data?.[0]?.b64_json followed by the falsiness
test if (!b64): some payload exactly when a non-empty first payload exists. -/
def firstImagePayload (data : List (Option String)) : Option String :=
  match data.head? with
  | none => none
  | some entry =>
    match entry with
    | none => none
    | some s => if s = "" then none else some s

/-- The image argument referenceImageFiles.length === 1 ?
referenceImageFiles[0] : referenceImageFiles of the generate-with-references
path: a single file when there is exactly one, the list itself otherwise. -/
def imageInputOfFiles (fs : List ImageFile) : ImageInput :=
  match fs with
  | [f] => .single f
  | fs => .multiple fs

/-- Shared tail of both handlers: dispatch exactly one provider call and
interpret the reply. A thrown provider error is caught and reported with
status 500; a success whose first entry carries no image payload yields
status 502 with the given message; otherwise status 200 with the image and
the mime type derived from the output format. -/
def dispatch (call : ProviderCall) (provider : ProviderCall → ProviderReply)
    (noImageMsg : String) (jpeg : Bool) : HandlerOutput :=
  match provider call with
  | .failure msg => ⟨500, .errorBody msg, [call]⟩
  | .success data =>
    match firstImagePayload data with
    | none => ⟨502, .errorBody noImageMsg, [call]⟩
    | some b64 =>
      ⟨200, .imageBody b64 (if jpeg then "image/jpeg" else "image/png"), [call]⟩

/-- The provider call that the generate handler builds once validation has
succeeded: an edit call on the parsed reference files when there are any,
a plain generate call otherwise; output_compression is attached exactly
when the output format is jpeg. -/
def genCall (req : GenerateRequest) (referenceImageFiles : List ImageFile) : ProviderCall :=
  if referenceImageFiles.length ≠ 0 then
    .edit { model := "gpt-image-1", prompt := req.prompt.asString,
            image := imageInputOfFiles referenceImageFiles,
            size := req.size.asString, quality := req.quality.asString,
            output_format := req.output_format.asString,
            output_compression :=
              if req.output_format.eqStr "jpeg"
              then some req.output_compression.asRat else none }
  else
    .generate { model := "gpt-image-1", prompt := req.prompt.asString,
                size := req.size.asString, quality := req.quality.asString,
                output_format := req.output_format.asString,
                output_compression :=
                  if req.output_format.eqStr "jpeg"
                  then some req.output_compression.asRat else none }

/-- The provider call that the edit handler builds once validation has
succeeded: always an edit call, whose image input is the source file alone
or the source file followed by the parsed reference files. -/
def editCall (req : EditRequest) (imageFile : ImageFile)
    (referenceImageFiles : List ImageFile) : ProviderCall :=
  .edit { model := "gpt-image-1", prompt := req.prompt.asString,
          image :=
            if referenceImageFiles.length ≠ 0 then
              .multiple (imageFile :: referenceImageFiles)
            else
              .single imageFile,
          size := req.size.asString, quality := req.quality.asString,
          output_format := req.output_format.asString,
          output_compression :=
            if req.output_format.eqStr "jpeg"
            then some req.output_compression.asRat else none }

/-- Embedding of the POST /generate handler from src/server.js (current
revision). The provider is a parameter; the returned output records the
dispatched calls. -/
def postGenerate (req : GenerateRequest) (provider : ProviderCall → ProviderReply) :
    HandlerOutput :=
  if jsMissingString req.prompt then
    ⟨400, .errorBody "Missing prompt", []⟩
  else if !setHas ALLOWED_SIZES req.size then
    ⟨400, .errorBody "Unsupported size. Use 1024x1024, 1024x1536, or 1536x1024.", []⟩
  else if !setHas ALLOWED_QUALITIES req.quality then
    ⟨400, .errorBody "Unsupported quality. Use low, medium, or high.", []⟩
  else if !setHas ALLOWED_OUTPUT_FORMATS req.output_format then
    ⟨400, .errorBody "Unsupported format. Use jpeg or png.", []⟩
  else if req.output_format.eqStr "jpeg" && !compressionValid req.output_compression then
    ⟨400, .errorBody "Compression must be an integer from 0 to 100.", []⟩
  else
    match parseReferenceImageFiles req.reference_images with
    | .error msg => ⟨400, .errorBody msg, []⟩
    | .ok referenceImageFiles =>
      dispatch (genCall req referenceImageFiles) provider "No image returned by API"
        (req.output_format.eqStr "jpeg")

/-- Embedding of the POST /edit handler from src/server.js (current
revision). -/
def postEdit (req : EditRequest) (provider : ProviderCall → ProviderReply) :
    HandlerOutput :=
  if jsMissingString req.prompt then
    ⟨400, .errorBody "Missing prompt", []⟩
  else if jsMissingString req.image_b64 then
    ⟨400, .errorBody "Missing source image", []⟩
  else if !setHas ALLOWED_SIZES req.size then
    ⟨400, .errorBody "Unsupported size. Use 1024x1024, 1024x1536, or 1536x1024.", []⟩
  else if !setHas ALLOWED_QUALITIES req.quality then
    ⟨400, .errorBody "Unsupported quality. Use low, medium, or high.", []⟩
  else if !setHas ALLOWED_OUTPUT_FORMATS req.output_format then
    ⟨400, .errorBody "Unsupported format. Use jpeg or png.", []⟩
  else if req.output_format.eqStr "jpeg" && !compressionValid req.output_compression then
    ⟨400, .errorBody "Compression must be an integer from 0 to 100.", []⟩
  else
    let sourceMimeType : JSVal :=
      if req.image_mime_type.truthy then req.image_mime_type else .jstr "image/png"
    match createImageFileFromBase64 req.image_b64 sourceMimeType "source" with
    | .error msg => ⟨400, .errorBody msg, []⟩
    | .ok imageFile =>
      match parseReferenceImageFiles req.reference_images with
      | .error msg => ⟨400, .errorBody msg, []⟩
      | .ok referenceImageFiles =>
        dispatch (editCall req imageFile referenceImageFiles) provider
          "No edited image returned by API" (req.output_format.eqStr "jpeg")

/-- One node of the client-side image history. -/
structure HistoryEntry where
  id : Nat
  b64 : String
  mimeType : String
  originPrompt : String
  parentId : Option Nat
deriving Repr, DecidableEq

/-- Client-side history state: the imageHistory array (newest first, since
addToHistory uses unshift) and the selectedId variable. -/
structure HistoryState where
  imageHistory : List HistoryEntry
  selectedId : Option Nat
deriving Repr, DecidableEq

/-- The initial state: empty history, selectedId null. -/
def emptyHistory : HistoryState := ⟨[], none⟩

/-- Embedding of the client selectImage function: it assigns selectedId
first and only then looks the id up, so the assignment happens even for an
unknown id; the remaining body only updates the DOM. -/
def selectImage (id : Nat) (s : HistoryState) : HistoryState :=
  { s with selectedId := some id }

/-- The currently selected node: the history entry whose id matches
selectedId, as computed by imageHistory.find. -/
def getSelected (s : HistoryState) : Option HistoryEntry :=
  match s.selectedId with
  | none => none
  | some id => s.imageHistory.find? (fun e => e.id == id)

/-- Arguments of one addToHistory call. -/
structure AddArgs where
  b64 : String
  mimeType : String
  originPrompt : String
  parentId : Option Nat
deriving Repr, DecidableEq

/-- Embedding of the client addToHistory function. The call reads the
current time (now) and draws Math.floor(Math.random() * 100000) (rand);
both are explicit inputs here. The new id is their sum, the node is
unshifted onto the history, and selectImage is called on the new id. -/
def addToHistory (now : Nat) (rand : Fin 100000) (args : AddArgs)
    (s : HistoryState) : HistoryState :=
  let id := now + rand.val
  selectImage id
    { s with imageHistory :=
        { id := id, b64 := args.b64, mimeType := args.mimeType,
          originPrompt := args.originPrompt, parentId := args.parentId } :: s.imageHistory }

/-- One step of a run of addToHistory calls: the environment inputs paired
with the call arguments. -/
structure AddStep where
  now : Nat
  rand : Fin 100000
  args : AddArgs

/-- The id that addToHistory computes for a step. -/
def AddStep.id (st : AddStep) : Nat := st.now + st.rand.val

/-- The history entry that a step creates. -/
def AddStep.entry (st : AddStep) : HistoryEntry :=
  { id := st.id, b64 := st.args.b64, mimeType := st.args.mimeType,
    originPrompt := st.args.originPrompt, parentId := st.args.parentId }

/-- Running a sequence of addToHistory calls from a starting state. -/
def runAdds (steps : List AddStep) (s : HistoryState) : HistoryState :=
  match steps with
  | [] => s
  | st :: rest => runAdds rest (addToHistory st.now st.rand st.args s)

/-- Concrete run of three chained addVersion calls. -/
def c5Steps : List AddStep :=
  [⟨100, ⟨1, by decide⟩, ⟨"bA", "image/png", "base", none⟩⟩,
   ⟨200, ⟨2, by decide⟩, ⟨"bB", "image/jpeg", "edit1", some 101⟩⟩,
   ⟨300, ⟨3, by decide⟩, ⟨"bC", "image/png", "edit2", some 202⟩⟩]

/-- Concrete history state holding one node with id 5, selected. -/
def c6Node : HistoryEntry :=
  { id := 5, b64 := "bX", mimeType := "image/png", originPrompt := "px", parentId := none }

/-- Concrete one-node state with node 5 selected. -/
def c6State : HistoryState := { imageHistory := [c6Node], selectedId := some 5 }

/-- Two addVersion calls whose time and random draw sum to the same id. -/
def c7CollidingSteps : List AddStep :=
  [⟨1000, ⟨5, by decide⟩, ⟨"b1", "image/png", "p1", none⟩⟩,
   ⟨1001, ⟨4, by decide⟩, ⟨"b2", "image/png", "p2", none⟩⟩]

/-- Two addVersion calls with distinct generated ids. -/
def c7FreshSteps : List AddStep :=
  [⟨1000, ⟨1, by decide⟩, ⟨"b1", "image/png", "p1", none⟩⟩,
   ⟨2000, ⟨2, by decide⟩, ⟨"b2", "image/jpeg", "p2", some 1001⟩⟩]

/-- A reference_images value that is present (neither undefined nor null)
and is not an array. -/
def nonArrayValue : JSVal → Bool
  | .jundefined => false
  | .jnull => false
  | .jarr _ => false
  | _ => true

/-- Concrete request used to instantiate C10: everything valid except that
reference_images is a string rather than an array. -/
def c10Req : GenerateRequest :=
  { prompt := .jstr "a fox", size := .jstr "1024x1024", quality := .jstr "low",
    output_format := .jstr "png", output_compression := .jundefined,
    reference_images := .jstr "nope" }

/-- The single parsed reference file of the concrete C2 request. -/
def c2File : ImageFile :=
  { name := "a.png.png", mimeType := "image/png", b64data := "aGVsbG8=" }

/-- Concrete fully valid generate request with one reference image. -/
def c2Req : GenerateRequest :=
  { prompt := .jstr "a red fox", size := .jstr "1024x1024", quality := .jstr "low",
    output_format := .jstr "png", output_compression := .jundefined,
    reference_images := .jarr [.jobj
      [("name", .jstr "a.png"), ("mime_type", .jstr "image/png"),
       ("b64", .jstr "aGVsbG8=")]] }

/-- Concrete fully valid edit request with one reference image. -/
def c9Req : EditRequest :=
  { prompt := .jstr "p", size := .jstr "1024x1024", quality := .jstr "low",
    output_format := .jstr "png", output_compression := .jundefined,
    image_b64 := .jstr "c3Jj", image_mime_type := .jstr "image/jpeg",
    reference_images := .jarr [.jobj
      [("mime_type", .jstr "image/png"), ("b64", .jstr "aGVsbG8=")]] }

/-- Concrete valid generate request without references. -/
def c8GenReq : GenerateRequest :=
  { prompt := .jstr "g", size := .jstr "1024x1024", quality := .jstr "low",
    output_format := .jstr "png", output_compression := .jundefined,
    reference_images := .jundefined }

/-- Concrete valid edit request without references. -/
def c8EditReq : EditRequest :=
  { prompt := .jstr "e", size := .jstr "1024x1024", quality := .jstr "low",
    output_format := .jstr "png", output_compression := .jundefined,
    image_b64 := .jstr "c3Jj", image_mime_type := .jundefined,
    reference_images := .jundefined }

/-- Concrete jpeg generate request with out-of-range compression 101. -/
def c1GenReq : GenerateRequest :=
  { prompt := .jstr "p", size := .jstr "1024x1024", quality := .jstr "low",
    output_format := .jstr "jpeg", output_compression := .jnum 101,
    reference_images := .jundefined }

/-- Concrete jpeg edit request whose compression is the string "80". -/
def c1EditReq : EditRequest :=
  { prompt := .jstr "p", size := .jstr "1024x1024", quality := .jstr "low",
    output_format := .jstr "jpeg", output_compression := .jstr "80",
    image_b64 := .jstr "c3Jj", image_mime_type := .jundefined,
    reference_images := .jundefined }

/-- Substring test on character lists, used to state that an error message
does not mention a file name. -/
def isSubChain (needle : List Char) : List Char → Bool
  | [] => needle.isEmpty
  | c :: t => needle.isPrefixOf (c :: t) || isSubChain needle t

/-- Concrete generate request whose only reference entry is named fox.gif
with mime type image/gif. -/
def c3Req : GenerateRequest :=
  { prompt := .jstr "a fox", size := .jstr "1024x1024", quality := .jstr "low",
    output_format := .jstr "png", output_compression := .jundefined,
    reference_images := .jarr [.jobj
      [("name", .jstr "fox.gif"), ("mime_type", .jstr "image/gif"),
       ("b64", .jstr "aGVsbG8=")]] }

/-- Concrete generate request with five reference entries. -/
def c3ManyReq : GenerateRequest :=
  { prompt := .jstr "a fox", size := .jstr "1024x1024", quality := .jstr "low",
    output_format := .jstr "png", output_compression := .jundefined,
    reference_images := .jarr (List.replicate 5 (.jobj
      [("mime_type", .jstr "image/png"), ("b64", .jstr "aGVsbG8=")])) }

/-- Concrete valid edit request used to instantiate the edit-side part. -/
def c3EditReq : EditRequest :=
  { prompt := .jstr "p", size := .jstr "1024x1024", quality := .jstr "low",
    output_format := .jstr "png", output_compression := .jundefined,
    image_b64 := .jstr "c3Jj", image_mime_type := .jundefined,
    reference_images := .jstr "bad" }

/-- Concrete edit request whose source mime type image/gif is present but
unsupported, with a non-empty decodable image payload. -/
def c4Req : EditRequest :=
  { prompt := .jstr "p", size := .jstr "1024x1024", quality := .jstr "low",
    output_format := .jstr "png", output_compression := .jundefined,
    image_b64 := .jstr "aGVsbG8=", image_mime_type := .jstr "image/gif",
    reference_images := .jundefined }

/-- Concrete edit request with an absent image_mime_type. -/
def c4DefaultReq : EditRequest :=
  { prompt := .jstr "p", size := .jstr "1024x1024", quality := .jstr "low",
    output_format := .jstr "png", output_compression := .jundefined,
    image_b64 := .jstr "aGVsbG8=", image_mime_type := .jundefined,
    reference_images := .jundefined }

/-- Two addVersion calls three milliseconds apart whose ids coincide. -/
def c5CollidingSteps : List AddStep :=
  [⟨2000, ⟨7, by decide⟩, ⟨"bA", "image/png", "base", none⟩⟩,
   ⟨2003, ⟨4, by decide⟩, ⟨"bB", "image/png", "edit1", some 2007⟩⟩]

/-- After a run of addToHistory calls, the history is the reversed list of
the created entries prepended to the starting history. -/
theorem runAdds_imageHistory (steps : List AddStep) (s : HistoryState) :
    (runAdds steps s).imageHistory = (steps.map AddStep.entry).reverse ++ s.imageHistory := by
  induction steps generalizing s with
  | nil => simp [runAdds]
  | cons st rest ih =>
    simp [runAdds, addToHistory, selectImage, ih, AddStep.entry, AddStep.id]

/-- Absorption of a fallback into getLast? of a cons. -/
theorem getLastOr_cons {α : Type} (a : α) (l : List α) (b : Option α) :
    ((a :: l).getLast?).or b = (l.getLast?).or (some a) := by
  cases l with
  | nil => simp
  | cons c t =>
    rw [List.getLast?_cons_cons]
    rcases h : (c :: t).getLast? with _ | v
    · rw [List.getLast?_eq_head?_reverse] at h
      simp at h
    · simp

/-- After a run of addToHistory calls, the selected id is the id of the last
call, or the starting selection when there was no call. -/
theorem runAdds_selectedId (steps : List AddStep) (s : HistoryState) :
    (runAdds steps s).selectedId = ((steps.map AddStep.id).getLast?).or s.selectedId := by
  induction steps generalizing s with
  | nil => simp [runAdds]
  | cons st rest ih =>
    rw [runAdds, ih, List.map_cons, getLastOr_cons]
    simp [addToHistory, selectImage, AddStep.id]


/-- C5: for every sequence of addVersion (addToHistory) calls on an
initially empty store, exactly N nodes exist, the history lists the created
nodes newest first, each node carries exactly the fields passed at its
creation (in particular its parentId, null for roots) together with the id
generated at that call, the selected id is the id of the most recent call,
and the selected node is the most recently created node. -/
theorem c5_addVersion_builds_history (steps : List AddStep) :
    (runAdds steps emptyHistory).imageHistory.length = steps.length ∧
    (runAdds steps emptyHistory).imageHistory = (steps.map AddStep.entry).reverse ∧
    (runAdds steps emptyHistory).selectedId = (steps.map AddStep.id).getLast? ∧
    (∀ st, steps.getLast? = some st →
      getSelected (runAdds steps emptyHistory) = some st.entry) := by
  have h1 : (runAdds steps emptyHistory).imageHistory = (steps.map AddStep.entry).reverse := by
    rw [runAdds_imageHistory]
    simp [emptyHistory]
  have h2 : (runAdds steps emptyHistory).selectedId = (steps.map AddStep.id).getLast? := by
    rw [runAdds_selectedId]
    simp [emptyHistory]
  refine ⟨by rw [h1]; simp, h1, h2, ?_⟩
  intro st hst
  have hsel : (runAdds steps emptyHistory).selectedId = some st.id := by
    rw [h2, List.getLast?_map, hst, Option.map_some']
  cases hrev : steps.reverse with
  | nil =>
    rw [List.getLast?_eq_head?_reverse, hrev] at hst
    cases hst
  | cons a t =>
    have ha : a = st := by
      have hh : steps.getLast? = steps.reverse.head? := List.getLast?_eq_head?_reverse
      rw [hrev, hst] at hh
      simpa using hh.symm
    subst ha
    simp only [getSelected, hsel]
    rw [h1, ← List.map_reverse, hrev]
    simp [List.find?_cons, AddStep.entry, AddStep.id]

/-- Witness for C5 at a concrete three-call run. -/
theorem c5_addVersion_builds_history_witness :
    (runAdds c5Steps emptyHistory).imageHistory.length = 3 ∧
    getSelected (runAdds c5Steps emptyHistory) =
      some { id := 303, b64 := "bC", mimeType := "image/png",
             originPrompt := "edit2", parentId := some 202 } := by
  obtain ⟨h1, _, _, h4⟩ := c5_addVersion_builds_history c5Steps
  exact ⟨h1, h4 ⟨300, ⟨3, by decide⟩, ⟨"bC", "image/png", "edit2", some 202⟩⟩ rfl⟩

/-- C6 counterexample: selecting an id that is not present is not a no-op:
the selectedId variable is overwritten before the lookup, so the previously
selected node stops being selected. -/
theorem c6_select_unknown_not_noop :
    selectImage 7 c6State ≠ c6State ∧
    getSelected c6State = some c6Node ∧
    getSelected (selectImage 7 c6State) = none := by
  decide

/-- C6 amended: select(id) always records id as the selected id and never
mutates any stored node; when the id is present the node with that id
becomes the selected node, when it is absent no node is selected afterwards
(the previous selection is lost); selecting twice equals selecting once. -/
theorem c6_select_sets_id_without_mutation (id : Nat) (s : HistoryState) :
    (selectImage id s).imageHistory = s.imageHistory ∧
    (selectImage id s).selectedId = some id ∧
    getSelected (selectImage id s) = s.imageHistory.find? (fun e => e.id == id) ∧
    (s.imageHistory.find? (fun e => e.id == id) = none →
      getSelected (selectImage id s) = none) ∧
    selectImage id (selectImage id s) = selectImage id s := by
  refine ⟨rfl, rfl, rfl, ?_, rfl⟩
  intro h
  simp [getSelected, selectImage, h]

/-- Witness for the amended C6 at a concrete state and unknown id. -/
theorem c6_select_sets_id_without_mutation_witness :
    getSelected (selectImage 7 c6State) = none :=
  (c6_select_sets_id_without_mutation 7 c6State).2.2.2.1 (by decide)

/-- C7 counterexample: the id is Date.now() plus a random offset below
100000, so calls one millisecond apart can generate the same id twice; the
store then holds two nodes with equal ids. -/
theorem c7_id_collision :
    ((runAdds c7CollidingSteps emptyHistory).imageHistory.map HistoryEntry.id)
      = [1005, 1005] ∧
    ¬ ((runAdds c7CollidingSteps emptyHistory).imageHistory.map HistoryEntry.id).Nodup := by
  decide

/-- C7 amended: the ids of the stored nodes are pairwise distinct whenever
the generated sums (timestamp plus random offset) of the calls are pairwise
distinct; the generation scheme itself does not rule collisions out. -/
theorem c7_ids_distinct_of_fresh (steps : List AddStep)
    (h : (steps.map AddStep.id).Nodup) :
    ((runAdds steps emptyHistory).imageHistory.map HistoryEntry.id).Nodup := by
  rw [runAdds_imageHistory]
  simp only [emptyHistory, List.append_nil]
  rw [List.map_reverse, List.map_map]
  have hc : HistoryEntry.id ∘ AddStep.entry = AddStep.id := rfl
  rw [hc, List.nodup_reverse]
  exact h

/-- Witness for the amended C7 at a concrete collision-free run. -/
theorem c7_ids_distinct_of_fresh_witness :
    ((runAdds c7FreshSteps emptyHistory).imageHistory.map HistoryEntry.id).Nodup :=
  c7_ids_distinct_of_fresh c7FreshSteps (by decide)

/-- A dispatch makes exactly the one recorded provider call, whatever the
reply. -/
theorem dispatch_calls (call : ProviderCall) (provider : ProviderCall → ProviderReply)
    (msg : String) (jpeg : Bool) : (dispatch call provider msg jpeg).calls = [call] := by
  unfold dispatch
  split
  · rfl
  · split <;> rfl

/-- A dispatch whose reply is a success without an image payload yields the
502 response with the given message. -/
theorem dispatch_success_noImage (call : ProviderCall)
    (provider : ProviderCall → ProviderReply) (msg : String) (jpeg : Bool)
    (data : List (Option String)) (h : provider call = .success data)
    (hd : firstImagePayload data = none) :
    dispatch call provider msg jpeg = ⟨502, .errorBody msg, [call]⟩ := by
  simp only [dispatch, h, hd]

/-- A dispatch whose reply is a thrown provider error yields the 500
response carrying its message. -/
theorem dispatch_failure (call : ProviderCall)
    (provider : ProviderCall → ProviderReply) (msg : String) (jpeg : Bool)
    (m : String) (h : provider call = .failure m) :
    dispatch call provider msg jpeg = ⟨500, .errorBody m, [call]⟩ := by
  simp only [dispatch, h]

/-- Parsing a present non-array reference_images value fails with the
array-shape message. -/
theorem parseReferenceImageFiles_nonArray (v : JSVal) (hv : nonArrayValue v = true) :
    parseReferenceImageFiles v = .error "reference_images must be an array." := by
  cases v <;> simp [nonArrayValue] at hv <;> rfl

/-- C10: supplying reference_images as an empty array is exactly equivalent
to omitting the field; with otherwise-valid fields an empty array takes the
pure generation path, issuing exactly one generate call; and a present
reference_images value that is not an array is rejected with a validation
error before any provider call. -/
theorem c10_reference_images_empty_or_not_array (greq : GenerateRequest)
    (provider : ProviderCall → ProviderReply) :
    (postGenerate { greq with reference_images := .jarr [] } provider =
      postGenerate { greq with reference_images := .jundefined } provider) ∧
    (jsMissingString greq.prompt = false →
     setHas ALLOWED_SIZES greq.size = true →
     setHas ALLOWED_QUALITIES greq.quality = true →
     setHas ALLOWED_OUTPUT_FORMATS greq.output_format = true →
     (greq.output_format.eqStr "jpeg" && !compressionValid greq.output_compression) = false →
     (nonArrayValue greq.reference_images = true →
       postGenerate greq provider =
         ⟨400, .errorBody "reference_images must be an array.", []⟩) ∧
     (greq.reference_images = .jarr [] →
       (postGenerate greq provider).calls =
         [.generate { model := "gpt-image-1", prompt := greq.prompt.asString,
                      size := greq.size.asString, quality := greq.quality.asString,
                      output_format := greq.output_format.asString,
                      output_compression :=
                        if greq.output_format.eqStr "jpeg"
                        then some greq.output_compression.asRat else none }])) := by
  constructor
  · rfl
  · intro h1 h2 h3 h4 h5
    constructor
    · intro hv
      simp [postGenerate, h1, h2, h3, h4, h5,
        parseReferenceImageFiles_nonArray greq.reference_images hv]
    · intro hv
      have hp : parseReferenceImageFiles (JSVal.jarr []) = .ok [] := rfl
      simp [postGenerate, h1, h2, h3, h4, h5, hv, hp, dispatch_calls, genCall]

/-- Witness for C10: the non-array rejection at a concrete request. -/
theorem c10_reference_images_empty_or_not_array_witness :
    postGenerate c10Req (fun _ => .success [some "IMG"]) =
      ⟨400, .errorBody "reference_images must be an array.", []⟩ :=
  ((c10_reference_images_empty_or_not_array c10Req
      (fun _ => .success [some "IMG"])).2 rfl rfl rfl rfl rfl).1 rfl

/-- C2: for every fully valid /generate request, when the parsed reference
images are non-empty exactly one provider edit call is made, with the
reference images as the image input (the single file when there is exactly
one, the ordered list otherwise); when no reference images are supplied,
exactly one generate call is made instead. -/
theorem c2_generate_dispatch (greq : GenerateRequest)
    (provider : ProviderCall → ProviderReply) (fs : List ImageFile)
    (h1 : jsMissingString greq.prompt = false)
    (h2 : setHas ALLOWED_SIZES greq.size = true)
    (h3 : setHas ALLOWED_QUALITIES greq.quality = true)
    (h4 : setHas ALLOWED_OUTPUT_FORMATS greq.output_format = true)
    (h5 : (greq.output_format.eqStr "jpeg" && !compressionValid greq.output_compression)
            = false)
    (hr : parseReferenceImageFiles greq.reference_images = .ok fs) :
    (fs ≠ [] →
      (postGenerate greq provider).calls =
        [.edit { model := "gpt-image-1", prompt := greq.prompt.asString,
                 image := imageInputOfFiles fs,
                 size := greq.size.asString, quality := greq.quality.asString,
                 output_format := greq.output_format.asString,
                 output_compression :=
                   if greq.output_format.eqStr "jpeg"
                   then some greq.output_compression.asRat else none }]) ∧
    (fs = [] →
      (postGenerate greq provider).calls =
        [.generate { model := "gpt-image-1", prompt := greq.prompt.asString,
                     size := greq.size.asString, quality := greq.quality.asString,
                     output_format := greq.output_format.asString,
                     output_compression :=
                       if greq.output_format.eqStr "jpeg"
                       then some greq.output_compression.asRat else none }]) := by
  constructor
  · intro hfs
    have hlen : fs.length ≠ 0 := by simpa [List.length_eq_zero] using hfs
    simp [postGenerate, h1, h2, h3, h4, h5, hr, hlen, dispatch_calls, genCall]
  · intro hfs
    subst hfs
    simp [postGenerate, h1, h2, h3, h4, h5, hr, dispatch_calls, genCall]

/-- Witness for C2: the concrete request with one reference image makes
exactly one edit call carrying that file. -/
theorem c2_generate_dispatch_witness :
    (postGenerate c2Req (fun _ => .success [some "IMG"])).calls =
      [.edit { model := "gpt-image-1", prompt := "a red fox",
               image := .single c2File, size := "1024x1024", quality := "low",
               output_format := "png", output_compression := none }] :=
  (c2_generate_dispatch c2Req (fun _ => .success [some "IMG"]) [c2File]
      rfl rfl rfl rfl rfl (by decide)).1 (by decide)

/-- C9: for every fully valid /edit request, exactly one provider edit call
is made; when reference images are supplied, the image input of that call
is the ordered list whose first element is the source image, followed by
the reference images in their given order; when none are supplied, the
image input is the source image alone. -/
theorem c9_edit_image_order (ereq : EditRequest)
    (provider : ProviderCall → ProviderReply) (f : ImageFile) (fs : List ImageFile)
    (h1 : jsMissingString ereq.prompt = false)
    (hb : jsMissingString ereq.image_b64 = false)
    (h2 : setHas ALLOWED_SIZES ereq.size = true)
    (h3 : setHas ALLOWED_QUALITIES ereq.quality = true)
    (h4 : setHas ALLOWED_OUTPUT_FORMATS ereq.output_format = true)
    (h5 : (ereq.output_format.eqStr "jpeg" && !compressionValid ereq.output_compression)
            = false)
    (hsrc : createImageFileFromBase64 ereq.image_b64
        (if ereq.image_mime_type.truthy then ereq.image_mime_type else .jstr "image/png")
        "source" = .ok f)
    (hr : parseReferenceImageFiles ereq.reference_images = .ok fs) :
    (fs ≠ [] →
      (postEdit ereq provider).calls =
        [.edit { model := "gpt-image-1", prompt := ereq.prompt.asString,
                 image := .multiple (f :: fs),
                 size := ereq.size.asString, quality := ereq.quality.asString,
                 output_format := ereq.output_format.asString,
                 output_compression :=
                   if ereq.output_format.eqStr "jpeg"
                   then some ereq.output_compression.asRat else none }]) ∧
    (fs = [] →
      (postEdit ereq provider).calls =
        [.edit { model := "gpt-image-1", prompt := ereq.prompt.asString,
                 image := .single f,
                 size := ereq.size.asString, quality := ereq.quality.asString,
                 output_format := ereq.output_format.asString,
                 output_compression :=
                   if ereq.output_format.eqStr "jpeg"
                   then some ereq.output_compression.asRat else none }]) := by
  constructor
  · intro hfs
    have hlen : fs.length ≠ 0 := by simpa [List.length_eq_zero] using hfs
    simp [postEdit, h1, hb, h2, h3, h4, h5, hsrc, hr, hlen, dispatch_calls, editCall]
  · intro hfs
    subst hfs
    simp [postEdit, h1, hb, h2, h3, h4, h5, hsrc, hr, dispatch_calls, editCall]

/-- Witness for C9: source image first, then the reference image. -/
theorem c9_edit_image_order_witness :
    (postEdit c9Req (fun _ => .success [some "IMG"])).calls =
      [.edit { model := "gpt-image-1", prompt := "p",
               image := .multiple
                 [{ name := "source.jpg", mimeType := "image/jpeg", b64data := "c3Jj" },
                  { name := "reference-1.png", mimeType := "image/png",
                    b64data := "aGVsbG8=" }],
               size := "1024x1024", quality := "low", output_format := "png",
               output_compression := none }] :=
  (c9_edit_image_order c9Req (fun _ => .success [some "IMG"])
      { name := "source.jpg", mimeType := "image/jpeg", b64data := "c3Jj" }
      [{ name := "reference-1.png", mimeType := "image/png", b64data := "aGVsbG8=" }]
      rfl rfl rfl rfl rfl rfl (by decide) (by decide)).1 (by decide)

/-- C8: for requests that pass validation, a provider success whose first
entry carries no image payload yields a 502 response with the dedicated
no-image message on each endpoint, while a thrown provider failure yields a
500 response; 502 differs from the 400 validation status and from the 500
failure status. -/
theorem c8_no_image_payload_502 (greq : GenerateRequest) (ereq : EditRequest)
    (provider : ProviderCall → ProviderReply)
    (g1 : jsMissingString greq.prompt = false)
    (g2 : setHas ALLOWED_SIZES greq.size = true)
    (g3 : setHas ALLOWED_QUALITIES greq.quality = true)
    (g4 : setHas ALLOWED_OUTPUT_FORMATS greq.output_format = true)
    (g5 : (greq.output_format.eqStr "jpeg" && !compressionValid greq.output_compression)
            = false)
    (gfs : List ImageFile)
    (gr : parseReferenceImageFiles greq.reference_images = .ok gfs)
    (e1 : jsMissingString ereq.prompt = false)
    (eb : jsMissingString ereq.image_b64 = false)
    (e2 : setHas ALLOWED_SIZES ereq.size = true)
    (e3 : setHas ALLOWED_QUALITIES ereq.quality = true)
    (e4 : setHas ALLOWED_OUTPUT_FORMATS ereq.output_format = true)
    (e5 : (ereq.output_format.eqStr "jpeg" && !compressionValid ereq.output_compression)
            = false)
    (ef : ImageFile)
    (esrc : createImageFileFromBase64 ereq.image_b64
        (if ereq.image_mime_type.truthy then ereq.image_mime_type else .jstr "image/png")
        "source" = .ok ef)
    (efs : List ImageFile)
    (er : parseReferenceImageFiles ereq.reference_images = .ok efs) :
    (∀ data, (∀ c, provider c = .success data) → firstImagePayload data = none →
      postGenerate greq provider =
        ⟨502, .errorBody "No image returned by API", [genCall greq gfs]⟩ ∧
      postEdit ereq provider =
        ⟨502, .errorBody "No edited image returned by API", [editCall ereq ef efs]⟩) ∧
    (∀ m, (∀ c, provider c = .failure m) →
      (postGenerate greq provider).status = 500 ∧ (postEdit ereq provider).status = 500) ∧
    ((502 : Nat) ≠ 400 ∧ (502 : Nat) ≠ 500) := by
  have hg : postGenerate greq provider =
      dispatch (genCall greq gfs) provider "No image returned by API"
        (greq.output_format.eqStr "jpeg") := by
    simp [postGenerate, g1, g2, g3, g4, g5, gr]
  have he : postEdit ereq provider =
      dispatch (editCall ereq ef efs) provider "No edited image returned by API"
        (ereq.output_format.eqStr "jpeg") := by
    simp [postEdit, e1, eb, e2, e3, e4, e5, esrc, er]
  refine ⟨?_, ?_, by decide⟩
  · intro data hp hd
    constructor
    · rw [hg, dispatch_success_noImage _ provider _ _ data (hp _) hd]
    · rw [he, dispatch_success_noImage _ provider _ _ data (hp _) hd]
  · intro m hp
    constructor
    · rw [hg, dispatch_failure _ provider _ _ m (hp _)]
    · rw [he, dispatch_failure _ provider _ _ m (hp _)]

/-- Witness for C8: a provider success with an empty first payload yields
the two 502 responses. -/
theorem c8_no_image_payload_502_witness :
    postGenerate c8GenReq (fun _ => .success [none]) =
      ⟨502, .errorBody "No image returned by API", [genCall c8GenReq []]⟩ ∧
    postEdit c8EditReq (fun _ => .success [none]) =
      ⟨502, .errorBody "No edited image returned by API",
        [editCall c8EditReq
          { name := "source.png", mimeType := "image/png", b64data := "c3Jj" } []]⟩ :=
  (c8_no_image_payload_502 c8GenReq c8EditReq (fun _ => .success [none])
      rfl rfl rfl rfl rfl [] rfl rfl rfl rfl rfl rfl rfl
      { name := "source.png", mimeType := "image/png", b64data := "c3Jj" } (by decide)
      [] rfl).1 [none] (fun _ => rfl) rfl

/-- The only messages createImageFileFromBase64 can raise. -/
theorem createImageFileFromBase64_error_msgs (a b : JSVal) (st m : String)
    (h : createImageFileFromBase64 a b st = .error m) :
    m = "Missing source image data." ∨
    m = "Unsupported source image type. Use PNG or JPEG." ∨
    m = "Invalid source image data." := by
  unfold createImageFileFromBase64 at h
  cases a
  case jstr s =>
    by_cases h1 : jsTrim s = ""
    · simp [h1] at h
      exact Or.inl h.symm
    · simp [h1] at h
      cases b with
      | jstr mm =>
        by_cases h2 : mm ∈ ALLOWED_SOURCE_MIME_TYPES
        · simp [h2] at h
          by_cases h3 : base64DecodedLength s = 0
          · simp [h3] at h
            exact Or.inr (Or.inr h.symm)
          · simp [h3] at h
        · simp [h2] at h
          exact Or.inr (Or.inl h.symm)
      | jundefined => simp at h; exact Or.inr (Or.inl h.symm)
      | jnull => simp at h; exact Or.inr (Or.inl h.symm)
      | jbool bb => simp at h; exact Or.inr (Or.inl h.symm)
      | jnum q => simp at h; exact Or.inr (Or.inl h.symm)
      | jarr xs => simp at h; exact Or.inr (Or.inl h.symm)
      | jobj fl => simp at h; exact Or.inr (Or.inl h.symm)
  all_goals
    simp at h
    exact Or.inl h.symm

/-- The only messages the reference-entry loop can raise. -/
theorem parseReferenceItems_error_msgs (items : List JSVal) (i : Nat) (m : String)
    (h : parseReferenceItems items i = .error m) :
    m = "Each reference image must be an object." ∨
    m = "Missing source image data." ∨
    m = "Unsupported source image type. Use PNG or JPEG." ∨
    m = "Invalid source image data." := by
  induction items generalizing i with
  | nil => simp [parseReferenceItems] at h
  | cons item rest ih =>
    unfold parseReferenceItems at h
    by_cases h1 : (!item.truthy || !item.typeofObject) = true
    · simp [h1] at h
      exact Or.inl h.symm
    · simp [h1] at h
      rcases hc : createImageFileFromBase64 (item.getField "b64")
          (item.getField "mime_type") (referenceStem item i) with e | file
      · rw [hc] at h
        simp at h
        subst h
        exact Or.inr (createImageFileFromBase64_error_msgs _ _ _ _ hc)
      · rw [hc] at h
        simp at h
        rcases hr2 : parseReferenceItems rest (i + 1) with e | files
        · rw [hr2] at h
          simp at h
          subst h
          exact ih (i + 1) hr2
        · rw [hr2] at h
          simp at h

/-- The only messages parseReferenceImageFiles can raise. -/
theorem parseReferenceImageFiles_error_msgs (v : JSVal) (m : String)
    (h : parseReferenceImageFiles v = .error m) :
    m ∈ ["reference_images must be an array.",
         "You can upload up to 4 reference images.",
         "Each reference image must be an object.",
         "Missing source image data.",
         "Unsupported source image type. Use PNG or JPEG.",
         "Invalid source image data."] := by
  unfold parseReferenceImageFiles at h
  cases v
  case jundefined => simp at h
  case jnull => simp at h
  case jarr items =>
    by_cases h1 : items.length > MAX_REFERENCE_IMAGES
    · simp [h1] at h
      have : ("You can upload up to " ++ toString MAX_REFERENCE_IMAGES
          ++ " reference images.") = "You can upload up to 4 reference images." := by decide
      rw [this] at h
      simp [h.symm]
    · simp [h1] at h
      rcases parseReferenceItems_error_msgs items 0 m h with h2 | h2 | h2 | h2 <;> simp [h2]
  all_goals
    simp at h
    simp [h.symm]

/-- A dispatched request never yields the 400 validation status. -/
theorem dispatch_status_ne_400 (call : ProviderCall)
    (provider : ProviderCall → ProviderReply) (msg : String) (jpeg : Bool) :
    (dispatch call provider msg jpeg).status ≠ 400 := by
  unfold dispatch
  split
  · intro h
    simp at h
  · split <;> (intro h; simp at h)

/-- The compression field forwarded by the generate-path call. -/
theorem genCall_compression (greq : GenerateRequest) (fs : List ImageFile) :
    (genCall greq fs).compression =
      (if greq.output_format.eqStr "jpeg"
       then some greq.output_compression.asRat else none) := by
  unfold genCall
  split <;> rfl

/-- The compression field forwarded by the edit-path call. -/
theorem editCall_compression (ereq : EditRequest) (f : ImageFile)
    (fs : List ImageFile) :
    (editCall ereq f fs).compression =
      (if ereq.output_format.eqStr "jpeg"
       then some ereq.output_compression.asRat else none) := rfl

/-- C1: on both endpoints, a jpeg request whose output_compression is not
an integer between 0 and 100 (non-integers, out-of-range numbers, strings,
absent values) is rejected with the compression validation error before any
provider call; a jpeg request with a valid compression is never rejected
with that error and forwards the value in the provider payload; a png
request behaves identically for every output_compression value (absent
included) and never forwards a compression field. -/
theorem c1_output_compression_validation (greq : GenerateRequest)
    (ereq : EditRequest) (provider : ProviderCall → ProviderReply)
    (g1 : jsMissingString greq.prompt = false)
    (g2 : setHas ALLOWED_SIZES greq.size = true)
    (g3 : setHas ALLOWED_QUALITIES greq.quality = true)
    (e1 : jsMissingString ereq.prompt = false)
    (eb : jsMissingString ereq.image_b64 = false)
    (e2 : setHas ALLOWED_SIZES ereq.size = true)
    (e3 : setHas ALLOWED_QUALITIES ereq.quality = true) :
    (greq.output_format = .jstr "jpeg" →
      compressionValid greq.output_compression = false →
      postGenerate greq provider =
        ⟨400, .errorBody "Compression must be an integer from 0 to 100.", []⟩) ∧
    (ereq.output_format = .jstr "jpeg" →
      compressionValid ereq.output_compression = false →
      postEdit ereq provider =
        ⟨400, .errorBody "Compression must be an integer from 0 to 100.", []⟩) ∧
    (greq.output_format = .jstr "jpeg" →
      compressionValid greq.output_compression = true →
      ¬ ((postGenerate greq provider).status = 400 ∧
         (postGenerate greq provider).body =
           .errorBody "Compression must be an integer from 0 to 100.") ∧
      ∀ c ∈ (postGenerate greq provider).calls,
        c.compression = some greq.output_compression.asRat) ∧
    (ereq.output_format = .jstr "jpeg" →
      compressionValid ereq.output_compression = true →
      ¬ ((postEdit ereq provider).status = 400 ∧
         (postEdit ereq provider).body =
           .errorBody "Compression must be an integer from 0 to 100.") ∧
      ∀ c ∈ (postEdit ereq provider).calls,
        c.compression = some ereq.output_compression.asRat) ∧
    (greq.output_format = .jstr "png" →
      (∀ v, postGenerate { greq with output_compression := v } provider =
        postGenerate greq provider) ∧
      ¬ ((postGenerate greq provider).status = 400 ∧
         (postGenerate greq provider).body =
           .errorBody "Compression must be an integer from 0 to 100.") ∧
      ∀ c ∈ (postGenerate greq provider).calls, c.compression = none) ∧
    (ereq.output_format = .jstr "png" →
      (∀ v, postEdit { ereq with output_compression := v } provider =
        postEdit ereq provider) ∧
      ¬ ((postEdit ereq provider).status = 400 ∧
         (postEdit ereq provider).body =
           .errorBody "Compression must be an integer from 0 to 100.") ∧
      ∀ c ∈ (postEdit ereq provider).calls, c.compression = none) := by
  refine ⟨?_, ?_, ?_, ?_, ?_, ?_⟩
  · intro hf hc
    have hf4 : setHas ALLOWED_OUTPUT_FORMATS greq.output_format = true := by rw [hf]; rfl
    have heq : greq.output_format.eqStr "jpeg" = true := by rw [hf]; rfl
    simp [postGenerate, g1, g2, g3, hf4, heq, hc]
  · intro hf hc
    have hf4 : setHas ALLOWED_OUTPUT_FORMATS ereq.output_format = true := by rw [hf]; rfl
    have heq : ereq.output_format.eqStr "jpeg" = true := by rw [hf]; rfl
    simp [postEdit, e1, eb, e2, e3, hf4, heq, hc]
  · intro hf hc
    have hf4 : setHas ALLOWED_OUTPUT_FORMATS greq.output_format = true := by rw [hf]; rfl
    have heq : greq.output_format.eqStr "jpeg" = true := by rw [hf]; rfl
    have hform : postGenerate greq provider =
        match parseReferenceImageFiles greq.reference_images with
        | .error msg => ⟨400, .errorBody msg, []⟩
        | .ok fs => dispatch (genCall greq fs) provider "No image returned by API"
            (greq.output_format.eqStr "jpeg") := by
      simp [postGenerate, g1, g2, g3, hf4, heq, hc]
    rcases hpr : parseReferenceImageFiles greq.reference_images with msg | fs
    · rw [hpr] at hform
      constructor
      · intro ⟨_, hbody⟩
        rw [hform] at hbody
        simp at hbody
        have := parseReferenceImageFiles_error_msgs _ _ hpr
        rw [hbody] at this
        revert this
        decide
      · intro c hcall
        rw [hform] at hcall
        simp at hcall
    · rw [hpr] at hform
      constructor
      · intro ⟨hst, _⟩
        rw [hform] at hst
        exact dispatch_status_ne_400 _ _ _ _ hst
      · intro c hcall
        rw [hform, dispatch_calls] at hcall
        simp at hcall
        rw [hcall, genCall_compression, heq]
        rfl
  · intro hf hc
    have hf4 : setHas ALLOWED_OUTPUT_FORMATS ereq.output_format = true := by rw [hf]; rfl
    have heq : ereq.output_format.eqStr "jpeg" = true := by rw [hf]; rfl
    rcases hsc : createImageFileFromBase64 ereq.image_b64
        (if ereq.image_mime_type.truthy then ereq.image_mime_type else .jstr "image/png")
        "source" with e | f
    · have hform : postEdit ereq provider = ⟨400, .errorBody e, []⟩ := by
        simp [postEdit, e1, eb, e2, e3, hf4, heq, hc, hsc]
      constructor
      · intro ⟨_, hbody⟩
        rw [hform] at hbody
        simp at hbody
        have := createImageFileFromBase64_error_msgs _ _ _ _ hsc
        rw [hbody] at this
        revert this
        decide
      · intro c hcall
        rw [hform] at hcall
        simp at hcall
    · have hform : postEdit ereq provider =
          match parseReferenceImageFiles ereq.reference_images with
          | .error msg => ⟨400, .errorBody msg, []⟩
          | .ok fs => dispatch (editCall ereq f fs) provider
              "No edited image returned by API" (ereq.output_format.eqStr "jpeg") := by
        simp [postEdit, e1, eb, e2, e3, hf4, heq, hc, hsc]
      rcases hpr : parseReferenceImageFiles ereq.reference_images with msg | fs
      · rw [hpr] at hform
        constructor
        · intro ⟨_, hbody⟩
          rw [hform] at hbody
          simp at hbody
          have := parseReferenceImageFiles_error_msgs _ _ hpr
          rw [hbody] at this
          revert this
          decide
        · intro c hcall
          rw [hform] at hcall
          simp at hcall
      · rw [hpr] at hform
        constructor
        · intro ⟨hst, _⟩
          rw [hform] at hst
          exact dispatch_status_ne_400 _ _ _ _ hst
        · intro c hcall
          rw [hform, dispatch_calls] at hcall
          simp at hcall
          rw [hcall, editCall_compression, heq]
          rfl
  · intro hf
    have hf4 : setHas ALLOWED_OUTPUT_FORMATS greq.output_format = true := by rw [hf]; rfl
    have heq : greq.output_format.eqStr "jpeg" = false := by rw [hf]; rfl
    refine ⟨?_, ?_, ?_⟩
    · intro v
      simp [postGenerate, g1, g2, g3, hf4, heq, genCall]
    · have hform : postGenerate greq provider =
          match parseReferenceImageFiles greq.reference_images with
          | .error msg => ⟨400, .errorBody msg, []⟩
          | .ok fs => dispatch (genCall greq fs) provider "No image returned by API"
              (greq.output_format.eqStr "jpeg") := by
        simp [postGenerate, g1, g2, g3, hf4, heq]
      rcases hpr : parseReferenceImageFiles greq.reference_images with msg | fs
      · rw [hpr] at hform
        intro ⟨_, hbody⟩
        rw [hform] at hbody
        simp at hbody
        have := parseReferenceImageFiles_error_msgs _ _ hpr
        rw [hbody] at this
        revert this
        decide
      · rw [hpr] at hform
        intro ⟨hst, _⟩
        rw [hform] at hst
        exact dispatch_status_ne_400 _ _ _ _ hst
    · have hform : postGenerate greq provider =
          match parseReferenceImageFiles greq.reference_images with
          | .error msg => ⟨400, .errorBody msg, []⟩
          | .ok fs => dispatch (genCall greq fs) provider "No image returned by API"
              (greq.output_format.eqStr "jpeg") := by
        simp [postGenerate, g1, g2, g3, hf4, heq]
      rcases hpr : parseReferenceImageFiles greq.reference_images with msg | fs
      · rw [hpr] at hform
        intro c hcall
        rw [hform] at hcall
        simp at hcall
      · rw [hpr] at hform
        intro c hcall
        rw [hform, dispatch_calls] at hcall
        simp at hcall
        rw [hcall, genCall_compression, heq]
        rfl
  · intro hf
    have hf4 : setHas ALLOWED_OUTPUT_FORMATS ereq.output_format = true := by rw [hf]; rfl
    have heq : ereq.output_format.eqStr "jpeg" = false := by rw [hf]; rfl
    refine ⟨?_, ?_, ?_⟩
    · intro v
      simp [postEdit, e1, eb, e2, e3, hf4, heq, editCall]
    · rcases hsc : createImageFileFromBase64 ereq.image_b64
          (if ereq.image_mime_type.truthy then ereq.image_mime_type else .jstr "image/png")
          "source" with e | f
      · have hform : postEdit ereq provider = ⟨400, .errorBody e, []⟩ := by
          simp [postEdit, e1, eb, e2, e3, hf4, heq, hsc]
        intro ⟨_, hbody⟩
        rw [hform] at hbody
        simp at hbody
        have := createImageFileFromBase64_error_msgs _ _ _ _ hsc
        rw [hbody] at this
        revert this
        decide
      · have hform : postEdit ereq provider =
            match parseReferenceImageFiles ereq.reference_images with
            | .error msg => ⟨400, .errorBody msg, []⟩
            | .ok fs => dispatch (editCall ereq f fs) provider
                "No edited image returned by API" (ereq.output_format.eqStr "jpeg") := by
          simp [postEdit, e1, eb, e2, e3, hf4, heq, hsc]
        rcases hpr : parseReferenceImageFiles ereq.reference_images with msg | fs
        · rw [hpr] at hform
          intro ⟨_, hbody⟩
          rw [hform] at hbody
          simp at hbody
          have := parseReferenceImageFiles_error_msgs _ _ hpr
          rw [hbody] at this
          revert this
          decide
        · rw [hpr] at hform
          intro ⟨hst, _⟩
          rw [hform] at hst
          exact dispatch_status_ne_400 _ _ _ _ hst
    · rcases hsc : createImageFileFromBase64 ereq.image_b64
          (if ereq.image_mime_type.truthy then ereq.image_mime_type else .jstr "image/png")
          "source" with e | f
      · have hform : postEdit ereq provider = ⟨400, .errorBody e, []⟩ := by
          simp [postEdit, e1, eb, e2, e3, hf4, heq, hsc]
        intro c hcall
        rw [hform] at hcall
        simp at hcall
      · have hform : postEdit ereq provider =
            match parseReferenceImageFiles ereq.reference_images with
            | .error msg => ⟨400, .errorBody msg, []⟩
            | .ok fs => dispatch (editCall ereq f fs) provider
                "No edited image returned by API" (ereq.output_format.eqStr "jpeg") := by
          simp [postEdit, e1, eb, e2, e3, hf4, heq, hsc]
        rcases hpr : parseReferenceImageFiles ereq.reference_images with msg | fs
        · rw [hpr] at hform
          intro c hcall
          rw [hform] at hcall
          simp at hcall
        · rw [hpr] at hform
          intro c hcall
          rw [hform, dispatch_calls] at hcall
          simp at hcall
          rw [hcall, editCall_compression, heq]
          rfl

/-- Witness for C1: both concrete jpeg requests with invalid compression
values are rejected with the compression validation error. -/
theorem c1_output_compression_validation_witness :
    postGenerate c1GenReq (fun _ => .success [some "IMG"]) =
      ⟨400, .errorBody "Compression must be an integer from 0 to 100.", []⟩ ∧
    postEdit c1EditReq (fun _ => .success [some "IMG"]) =
      ⟨400, .errorBody "Compression must be an integer from 0 to 100.", []⟩ := by
  have h := c1_output_compression_validation c1GenReq c1EditReq
    (fun _ => .success [some "IMG"]) rfl rfl rfl rfl rfl rfl rfl
  exact ⟨h.1 rfl (by decide), h.2.1 rfl rfl⟩

/-- A non-blank base64 string with an unsupported mime value makes
createImageFileFromBase64 raise the generic unsupported-type message. -/
theorem createImageFileFromBase64_bad_mime (s : String) (v : JSVal) (stem : String)
    (hs : jsTrim s ≠ "") (hv : setHas ALLOWED_SOURCE_MIME_TYPES v = false) :
    createImageFileFromBase64 (.jstr s) v stem =
      .error "Unsupported source image type. Use PNG or JPEG." := by
  unfold createImageFileFromBase64
  cases v with
  | jstr m =>
    simp only [setHas] at hv
    have hv2 : m ∉ ALLOWED_SOURCE_MIME_TYPES := by simpa using hv
    simp [hs, hv2]
  | jundefined => simp [hs]
  | jnull => simp [hs]
  | jbool b => simp [hs]
  | jnum q => simp [hs]
  | jarr xs => simp [hs]
  | jobj fl => simp [hs]

/-- A non-blank base64 string with a supported mime type but no decodable
bytes makes createImageFileFromBase64 raise the invalid-data message. -/
theorem createImageFileFromBase64_empty_data (s m : String) (stem : String)
    (hs : jsTrim s ≠ "") (hm : m ∈ ALLOWED_SOURCE_MIME_TYPES)
    (hd : base64DecodedLength s = 0) :
    createImageFileFromBase64 (.jstr s) (.jstr m) stem =
      .error "Invalid source image data." := by
  unfold createImageFileFromBase64
  simp [hs, hm, hd]

/-- A failing first entry aborts the reference-entry loop with its error. -/
theorem parseReferenceItems_head_error (item : JSVal) (rest : List JSVal)
    (i : Nat) (e : String) (h1 : item.truthy = true) (h2 : item.typeofObject = true)
    (hc : createImageFileFromBase64 (item.getField "b64") (item.getField "mime_type")
        (referenceStem item i) = .error e) :
    parseReferenceItems (item :: rest) i = .error e := by
  unfold parseReferenceItems
  simp [h1, h2, hc]

/-- A falsy value is never a member of the allowed source mime set. -/
theorem truthyFalse_setHas_false (v : JSVal) (h : v.truthy = false) :
    setHas ALLOWED_SOURCE_MIME_TYPES v = false := by
  cases v with
  | jstr s =>
    simp [JSVal.truthy] at h
    subst h
    decide
  | jundefined => rfl
  | jnull => rfl
  | jbool b => rfl
  | jnum q => rfl
  | jarr xs => rfl
  | jobj fl => rfl

/-- Oversized reference collections are rejected with the fixed message. -/
theorem parseReferenceImageFiles_too_many (items : List JSVal)
    (h : items.length > MAX_REFERENCE_IMAGES) :
    parseReferenceImageFiles (.jarr items) =
      .error "You can upload up to 4 reference images." := by
  unfold parseReferenceImageFiles
  simp [h]
  decide

/-- C3 counterexample: the entry with an unsupported mime type is rejected,
but the error message is the fixed generic string, which does not contain
the name fox.gif of the offending entry. -/
theorem c3_error_does_not_name_entry :
    postGenerate c3Req (fun _ => .success [some "IMG"]) =
      ⟨400, .errorBody "Unsupported source image type. Use PNG or JPEG.", []⟩ ∧
    isSubChain "fox.gif".data
      "Unsupported source image type. Use PNG or JPEG.".data = false := by
  exact ⟨by decide, by decide⟩

/-- C3 amended: collections of more than 4 reference entries are rejected
with the fixed size message; an entry with an unsupported mime type or with
a base64 payload decoding to empty bytes aborts parsing with a fixed
generic message (not naming the entry), and any reference parsing error is
surfaced as a 400 response with that message and no provider call, on both
endpoints. -/
theorem c3_reference_image_rejections (greq : GenerateRequest) (ereq : EditRequest)
    (provider : ProviderCall → ProviderReply)
    (g1 : jsMissingString greq.prompt = false)
    (g2 : setHas ALLOWED_SIZES greq.size = true)
    (g3 : setHas ALLOWED_QUALITIES greq.quality = true)
    (g4 : setHas ALLOWED_OUTPUT_FORMATS greq.output_format = true)
    (g5 : (greq.output_format.eqStr "jpeg" && !compressionValid greq.output_compression)
            = false)
    (e1 : jsMissingString ereq.prompt = false)
    (eb : jsMissingString ereq.image_b64 = false)
    (e2 : setHas ALLOWED_SIZES ereq.size = true)
    (e3 : setHas ALLOWED_QUALITIES ereq.quality = true)
    (e4 : setHas ALLOWED_OUTPUT_FORMATS ereq.output_format = true)
    (e5 : (ereq.output_format.eqStr "jpeg" && !compressionValid ereq.output_compression)
            = false)
    (ef : ImageFile)
    (esrc : createImageFileFromBase64 ereq.image_b64
        (if ereq.image_mime_type.truthy then ereq.image_mime_type else .jstr "image/png")
        "source" = .ok ef) :
    (∀ items, greq.reference_images = .jarr items →
      items.length > MAX_REFERENCE_IMAGES →
      postGenerate greq provider =
        ⟨400, .errorBody "You can upload up to 4 reference images.", []⟩) ∧
    (∀ m, parseReferenceImageFiles greq.reference_images = .error m →
      postGenerate greq provider = ⟨400, .errorBody m, []⟩) ∧
    (∀ m, parseReferenceImageFiles ereq.reference_images = .error m →
      postEdit ereq provider = ⟨400, .errorBody m, []⟩) ∧
    (∀ item rest i s, item.truthy = true → item.typeofObject = true →
      item.getField "b64" = .jstr s → jsTrim s ≠ "" →
      setHas ALLOWED_SOURCE_MIME_TYPES (item.getField "mime_type") = false →
      parseReferenceItems (item :: rest) i =
        .error "Unsupported source image type. Use PNG or JPEG.") ∧
    (∀ item rest i s m, item.truthy = true → item.typeofObject = true →
      item.getField "b64" = .jstr s → jsTrim s ≠ "" →
      item.getField "mime_type" = .jstr m → m ∈ ALLOWED_SOURCE_MIME_TYPES →
      base64DecodedLength s = 0 →
      parseReferenceItems (item :: rest) i =
        .error "Invalid source image data.") := by
  refine ⟨?_, ?_, ?_, ?_, ?_⟩
  · intro items hi hlen
    simp [postGenerate, g1, g2, g3, g4, g5, hi,
      parseReferenceImageFiles_too_many items hlen]
  · intro m hm
    simp [postGenerate, g1, g2, g3, g4, g5, hm]
  · intro m hm
    simp [postEdit, e1, eb, e2, e3, e4, e5, esrc, hm]
  · intro item rest i s h1 h2 hb hs hv
    refine parseReferenceItems_head_error item rest i _ h1 h2 ?_
    rw [hb]
    exact createImageFileFromBase64_bad_mime s _ _ hs hv
  · intro item rest i s m h1 h2 hb hs hm hmem hd
    refine parseReferenceItems_head_error item rest i _ h1 h2 ?_
    rw [hb, hm]
    exact createImageFileFromBase64_empty_data s m _ hs hmem hd

/-- Witness for the amended C3: five reference entries are rejected with
the size message, and a non-array edit-side value propagates its parse
error. -/
theorem c3_reference_image_rejections_witness :
    postGenerate c3ManyReq (fun _ => .success [some "IMG"]) =
      ⟨400, .errorBody "You can upload up to 4 reference images.", []⟩ ∧
    postEdit c3EditReq (fun _ => .success [some "IMG"]) =
      ⟨400, .errorBody "reference_images must be an array.", []⟩ := by
  have h := c3_reference_image_rejections c3ManyReq c3EditReq
    (fun _ => .success [some "IMG"]) rfl rfl rfl rfl rfl rfl rfl rfl rfl rfl rfl
    { name := "source.png", mimeType := "image/png", b64data := "c3Jj" } (by decide)
  exact ⟨h.1 _ rfl (by decide), h.2.2.1 _ (by decide)⟩

/-- C4 counterexample: an invalid (present) image_mime_type is not
defaulted to image/png; the request is rejected with a 400 validation
error. -/
theorem c4_invalid_mime_rejected :
    postEdit c4Req (fun _ => .success [some "IMG"]) =
      ⟨400, .errorBody "Unsupported source image type. Use PNG or JPEG.", []⟩ := by
  decide

/-- C4 amended: for an /edit request with a non-blank image_b64, a falsy
(absent or empty) image_mime_type is defaulted to image/png and the source
file is built successfully; a truthy image_mime_type outside the allowed
set is rejected with a 400 validation error and no provider call; and a
reference entry never defaults a falsy mime type, it is rejected instead,
so the asymmetry only covers the defaulting of the absent source mime. -/
theorem c4_source_mime_handling (ereq : EditRequest)
    (provider : ProviderCall → ProviderReply)
    (e1 : jsMissingString ereq.prompt = false)
    (e2 : setHas ALLOWED_SIZES ereq.size = true)
    (e3 : setHas ALLOWED_QUALITIES ereq.quality = true)
    (e4 : setHas ALLOWED_OUTPUT_FORMATS ereq.output_format = true)
    (e5 : (ereq.output_format.eqStr "jpeg" && !compressionValid ereq.output_compression)
            = false)
    (s : String) (hb : ereq.image_b64 = .jstr s) (hs : jsTrim s ≠ "") :
    (ereq.image_mime_type.truthy = false → base64DecodedLength s ≠ 0 →
      createImageFileFromBase64 ereq.image_b64
          (if ereq.image_mime_type.truthy then ereq.image_mime_type
           else .jstr "image/png") "source" =
        .ok { name := "source.png", mimeType := "image/png", b64data := s }) ∧
    (ereq.image_mime_type.truthy = true →
      setHas ALLOWED_SOURCE_MIME_TYPES ereq.image_mime_type = false →
      postEdit ereq provider =
        ⟨400, .errorBody "Unsupported source image type. Use PNG or JPEG.", []⟩) ∧
    (∀ item rest i s2, item.truthy = true → item.typeofObject = true →
      item.getField "b64" = .jstr s2 → jsTrim s2 ≠ "" →
      (item.getField "mime_type").truthy = false →
      parseReferenceItems (item :: rest) i =
        .error "Unsupported source image type. Use PNG or JPEG.") := by
  have hsne : s ≠ "" := by
    intro h
    exact hs (by rw [h]; rfl)
  have heb : jsMissingString ereq.image_b64 = false := by
    rw [hb]
    simp [jsMissingString, JSVal.truthy, JSVal.isStringVal, hsne]
  refine ⟨?_, ?_, ?_⟩
  · intro ht hd
    rw [hb, ht]
    unfold createImageFileFromBase64
    simp [hs, hd, ALLOWED_SOURCE_MIME_TYPES]
  · intro ht hv
    have hsc : createImageFileFromBase64 ereq.image_b64
        (if ereq.image_mime_type.truthy then ereq.image_mime_type
         else .jstr "image/png") "source" =
        .error "Unsupported source image type. Use PNG or JPEG." := by
      rw [hb, ht]
      simp only [if_true]
      exact createImageFileFromBase64_bad_mime s _ _ hs hv
    simp [postEdit, e1, heb, e2, e3, e4, e5, hsc]
  · intro item rest i s2 h1 h2 hb2 hs2 ht2
    refine parseReferenceItems_head_error item rest i _ h1 h2 ?_
    rw [hb2]
    exact createImageFileFromBase64_bad_mime s2 _ _ hs2
      (truthyFalse_setHas_false _ ht2)

/-- Witness for the amended C4: the absent mime type defaults to image/png
and the source file is built; the present invalid mime type of the other
concrete request is rejected. -/
theorem c4_source_mime_handling_witness :
    createImageFileFromBase64 c4DefaultReq.image_b64
        (if c4DefaultReq.image_mime_type.truthy then c4DefaultReq.image_mime_type
         else .jstr "image/png") "source" =
      .ok { name := "source.png", mimeType := "image/png", b64data := "aGVsbG8=" } ∧
    postEdit c4Req (fun _ => .success [some "IMG"]) =
      ⟨400, .errorBody "Unsupported source image type. Use PNG or JPEG.", []⟩ :=
  ⟨(c4_source_mime_handling c4DefaultReq (fun _ => .success [some "IMG"])
      rfl rfl rfl rfl rfl "aGVsbG8=" rfl (by decide)).1 rfl (by decide),
   (c4_source_mime_handling c4Req (fun _ => .success [some "IMG"])
      rfl rfl rfl rfl rfl "aGVsbG8=" rfl (by decide)).2.1 rfl rfl⟩

/-- C5 counterexample: the id of a new node is not fresh in general; after
the first call a node with id 2007 exists, and the second call creates
another node with the same id 2007. -/
theorem c5_new_id_not_fresh :
    (runAdds (c5CollidingSteps.take 1) emptyHistory).imageHistory.map HistoryEntry.id
      = [2007] ∧
    (runAdds c5CollidingSteps emptyHistory).imageHistory.map HistoryEntry.id
      = [2007, 2007] := by
  decide
